import Mathlib

/-!
Verification development for the image-manipulator web application core:
the EXIF orientation normalizer (`src/lib/imageUtils.ts`) and the
Replicate prediction poller (`src/lib/replicate.ts`), together with the
caller-side output normalization in `PhotoCard.handleRunAI`.

The TypeScript functions are shallowly embedded as executable Lean
definitions; remote calls are abstracted as oracles (the submission
result and the stream of poll responses).
-/

namespace ImageManipulator

/-! ## Byte-level EXIF orientation parser (imageUtils.ts, `getOrientation`)

A `DataView` over the file bytes is modelled as a `List Nat`.  Reads past
the end of the buffer throw `RangeError` in JavaScript; here they return
`Except.error ()`, and `Except.ok n` models the callback being invoked
with orientation `n`. -/

/-- Model of `DataView.getUint16(off, littleEndian)`: two-byte read, erroring when
the read would run past the end of the buffer. -/
def getU16 (bs : List Nat) (off : Nat) (little : Bool) : Except Unit Nat :=
  if off + 2 ≤ bs.length then
    .ok (if little then bs.getD (off + 1) 0 * 256 + bs.getD off 0
         else bs.getD off 0 * 256 + bs.getD (off + 1) 0)
  else .error ()

/-- Model of `DataView.getUint32(off, littleEndian)`: four-byte read, erroring when
the read would run past the end of the buffer. -/
def getU32 (bs : List Nat) (off : Nat) (little : Bool) : Except Unit Nat :=
  if off + 4 ≤ bs.length then
    .ok (if little then
          ((bs.getD (off + 3) 0 * 256 + bs.getD (off + 2) 0) * 256
            + bs.getD (off + 1) 0) * 256 + bs.getD off 0
         else
          ((bs.getD off 0 * 256 + bs.getD (off + 1) 0) * 256
            + bs.getD (off + 2) 0) * 256 + bs.getD (off + 3) 0)
  else .error ()

/-- The `for (let i = 0; i < tags; i++)` scan over the EXIF tag directory:
entry `i` lives at `base + 12*i`; on tag id `0x0112` the two-byte value at
entry offset `+8` is returned. -/
def findOrientationTag (bs : List Nat) (base : Nat) (little : Bool) :
    Nat → Except Unit (Option Nat)
  | 0 => .ok none
  | n + 1 =>
    match getU16 bs base little with
    | .error e => .error e
    | .ok tagId =>
      if tagId = 0x0112 then
        match getU16 bs (base + 8) little with
        | .error e => .error e
        | .ok v => .ok (some v)
      else findOrientationTag bs (base + 12) little n

/-- The `while (offset < length)` marker-segment scan of `getOrientation`.
`offset` points at the next marker.  On the EXIF marker `0xFFE1` the code
verifies the `Exif` magic, determines byte order, follows the IFD offset
and scans the tag directory; every other `0xFFxx` marker is skipped by its
length field, and a non-`0xFFxx` word breaks the loop (orientation 1). -/
def scanSegments (bs : List Nat) (offset : Nat) : Except Unit Nat :=
  if hoff : offset < bs.length then
    match getU16 bs offset false with
    | .error e => .error e
    | .ok marker =>
      if marker = 0xFFE1 then
        match getU32 bs (offset + 4) false with
        | .error e => .error e
        | .ok exifMagic =>
          if exifMagic ≠ 0x45786966 then .ok 1
          else
            match getU16 bs (offset + 10) false with
            | .error e => .error e
            | .ok byteOrder =>
              let little := byteOrder = 0x4949
              match getU32 bs (offset + 14) little with
              | .error e => .error e
              | .ok ifdRel =>
                match getU16 bs (offset + 10 + ifdRel) little with
                | .error e => .error e
                | .ok tagCount =>
                  match findOrientationTag bs (offset + 10 + ifdRel + 2) little tagCount with
                  | .error e => .error e
                  | .ok (some v) => .ok v
                  | .ok none => scanSegments bs (offset + 10 + ifdRel + 2)
      else if marker &&& 0xFF00 ≠ 0xFF00 then .ok 1
      else
        match getU16 bs (offset + 2) false with
        | .error e => .error e
        | .ok segLen => scanSegments bs (offset + 2 + segLen)
  else .ok 1
  termination_by bs.length - offset
  decreasing_by
    all_goals simp_wf
    all_goals omega

/-- The function `getOrientation` from `imageUtils.ts`: check the JPEG SOI marker
`0xFFD8` at offset 0 (a short buffer makes this first read throw), answer
orientation 1 for non-JPEG data, otherwise scan the marker segments. -/
def getOrientation (bs : List Nat) : Except Unit Nat :=
  match getU16 bs 0 false with
  | .error e => .error e
  | .ok soi => if soi ≠ 0xFFD8 then .ok 1 else scanSegments bs 2

/-! ## Canvas orientation normalization (imageUtils.ts, `normalizeImageOrientation`)

An image is a rectangular grid of pixels addressed by integer
coordinates; the canvas produced by `normalizeImageOrientation` is a grid
of optional pixels (uncovered canvas cells stay blank). -/

/-- A decoded source image: width, height, and the pixel at each
coordinate (the value outside the rectangle is irrelevant to the
claims). -/
structure Image (α : Type) where
  w : Int
  h : Int
  pix : Int → Int → α

/-- An output canvas: width, height, and an optional pixel at each
coordinate (`none` outside the canvas / where nothing was drawn). -/
structure OutImage (α : Type) where
  w : Int
  h : Int
  pix : Int → Int → Option α

/-- The six arguments of `ctx.transform(a, b, c, d, e, f)`: the affine map
`(x, y) ↦ (a·x + c·y + e, b·x + d·y + f)`. -/
structure CanvasTransform where
  a : Int
  b : Int
  c : Int
  d : Int
  e : Int
  f : Int

/-- The `switch (orientation)` of `normalizeImageOrientation`: the
`ctx.transform` arguments installed for each orientation tag, identity for
the default branch. -/
def orientTransform (orientation : Nat) (w h : Int) : CanvasTransform :=
  if orientation = 2 then ⟨-1, 0, 0, 1, w, 0⟩
  else if orientation = 3 then ⟨-1, 0, 0, -1, w, h⟩
  else if orientation = 4 then ⟨1, 0, 0, -1, 0, h⟩
  else if orientation = 5 then ⟨0, 1, 1, 0, 0, 0⟩
  else if orientation = 6 then ⟨0, 1, -1, 0, h, 0⟩
  else if orientation = 7 then ⟨0, -1, -1, 0, h, w⟩
  else if orientation = 8 then ⟨0, -1, 1, 0, 0, w⟩
  else ⟨1, 0, 0, 1, 0, 0⟩

/-- The inverse of the affine map: for the orthogonal (signed-permutation)
matrices installed by the switch, the inverse linear part is the
transpose, applied to the translated point. -/
def invPoint (t : CanvasTransform) (i j : Int) : Int × Int :=
  (t.a * (i - t.e) + t.b * (j - t.f), t.c * (i - t.e) + t.d * (j - t.f))

/-- The source pixel cell covering canvas cell `(i, j)` under the current
transform: the preimage of the canvas cell `[i, i+1) × [j, j+1)` is again
a unit cell, whose min corner is the componentwise min of the preimages of
the two extreme corners. -/
def srcIndex (t : CanvasTransform) (i j : Int) : Int × Int :=
  let p := invPoint t i j
  let q := invPoint t (i + 1) (j + 1)
  (min p.1 q.1, min p.2 q.2)

/-- Model of `ctx.drawImage(img, 0, 0)` under the installed transform: canvas cell
`(i, j)` receives the source pixel whose cell maps onto it, if that cell
lies inside the source rectangle. -/
def drawImage {α : Type} (t : CanvasTransform) (src : Image α) (i j : Int) : Option α :=
  let s := srcIndex t i j
  if 0 ≤ s.1 ∧ s.1 < src.w ∧ 0 ≤ s.2 ∧ s.2 < src.h then some (src.pix s.1 s.2) else none

/-- The function `normalizeImageOrientation` given the extracted orientation tag: the
canvas swaps width and height for orientations 5–8 (`orientation > 4 &&
orientation < 9`), installs the switch's transform, and draws the image. -/
def normalizeImageOrientation {α : Type} (orientation : Nat) (src : Image α) : OutImage α :=
  let cw := if 4 < orientation ∧ orientation < 9 then src.h else src.w
  let ch := if 4 < orientation ∧ orientation < 9 then src.w else src.h
  let t := orientTransform orientation src.w src.h
  { w := cw, h := ch,
    pix := fun i j =>
      if 0 ≤ i ∧ i < cw ∧ 0 ≤ j ∧ j < ch then drawImage t src i j else none }

/-- Reference geometric transforms, following the table in the
specification (1 identity, 2 horizontal flip, 3 180° rotation, 4 vertical
flip, 5 transpose, 6 90° clockwise, 7 transverse, 8 270° clockwise; any
other tag behaves as identity), stated as direct output-pixel lookups. -/
def refTransform {α : Type} (tag : Nat) (src : Image α) : OutImage α :=
  if tag = 2 then
    ⟨src.w, src.h, fun i j =>
      if 0 ≤ i ∧ i < src.w ∧ 0 ≤ j ∧ j < src.h then some (src.pix (src.w - 1 - i) j) else none⟩
  else if tag = 3 then
    ⟨src.w, src.h, fun i j =>
      if 0 ≤ i ∧ i < src.w ∧ 0 ≤ j ∧ j < src.h then
        some (src.pix (src.w - 1 - i) (src.h - 1 - j)) else none⟩
  else if tag = 4 then
    ⟨src.w, src.h, fun i j =>
      if 0 ≤ i ∧ i < src.w ∧ 0 ≤ j ∧ j < src.h then some (src.pix i (src.h - 1 - j)) else none⟩
  else if tag = 5 then
    ⟨src.h, src.w, fun i j =>
      if 0 ≤ i ∧ i < src.h ∧ 0 ≤ j ∧ j < src.w then some (src.pix j i) else none⟩
  else if tag = 6 then
    ⟨src.h, src.w, fun i j =>
      if 0 ≤ i ∧ i < src.h ∧ 0 ≤ j ∧ j < src.w then some (src.pix j (src.h - 1 - i)) else none⟩
  else if tag = 7 then
    ⟨src.h, src.w, fun i j =>
      if 0 ≤ i ∧ i < src.h ∧ 0 ≤ j ∧ j < src.w then
        some (src.pix (src.w - 1 - j) (src.h - 1 - i)) else none⟩
  else if tag = 8 then
    ⟨src.h, src.w, fun i j =>
      if 0 ≤ i ∧ i < src.h ∧ 0 ≤ j ∧ j < src.w then some (src.pix (src.w - 1 - j) i) else none⟩
  else
    ⟨src.w, src.h, fun i j =>
      if 0 ≤ i ∧ i < src.w ∧ 0 ≤ j ∧ j < src.h then some (src.pix i j) else none⟩

/-! ## Replicate prediction poller (replicate.ts)

The remote service is abstracted as an oracle: the prediction returned by
`createPrediction` and the stream of predictions returned by successive
`getPrediction` calls (`polls n` is the response to the `n`-th status
read).  `setTimeout` waits have no observable effect in this model. -/

/-- The JavaScript values flowing through `output` and `error` fields. -/
inductive JSValue where
  | str (s : String)
  | num (n : Int)
  | bool (b : Bool)
  | nullv
  | undefined
  | arr (elems : List JSValue)

/-- The five `status` literals of `ReplicatePrediction`. -/
inductive Status where
  | starting
  | processing
  | succeeded
  | failed
  | canceled
deriving DecidableEq

/-- A `ReplicatePrediction` record (the consumed fields; absent optional
fields are `undefined`). -/
structure Prediction where
  id : String
  status : Status
  output : JSValue
  error : JSValue

/-- A status is terminal when it is `succeeded`, `failed` or `canceled`. -/
def isTerminalStatus : Status → Bool
  | .succeeded => true
  | .failed => true
  | .canceled => true
  | _ => false

/-- JavaScript falsiness, as consumed by `result.error || 'Unknown error'`. -/
def jsFalsy : JSValue → Bool
  | .str s => s = ""
  | .num n => n = 0
  | .bool b => !b
  | .nullv => true
  | .undefined => true
  | .arr _ => false

/-- The error payload carried by the thrown failure message:
`result.error || 'Unknown error'`. -/
def errPayload (e : JSValue) : JSValue :=
  if jsFalsy e then .str "Unknown error" else e

/-- The errors `runReplicate` can throw: job failure (with the remote
status and the error payload) or poll timeout. -/
inductive RunError where
  | jobFailed (st : Status) (payload : JSValue)
  | pollTimeout

/-- The `while (attempts < maxAttempts)` loop of `runReplicate`, by
remaining attempts: each entered iteration reads `polls i`, reports its
status, returns the output on `succeeded`, throws on `failed`/`canceled`,
and otherwise sleeps and continues.  The result records the outcome, the
list of statuses passed to `onProgress` by the loop, and the number of
status reads performed. -/
def pollLoop (polls : Nat → Prediction) :
    Nat → Nat → Except RunError JSValue × List Status × Nat
  | _, 0 => (.error .pollTimeout, [], 0)
  | i, fuel + 1 =>
    let r := polls i
    if r.status = .succeeded then
      (.ok r.output, [r.status], 1)
    else if r.status = .failed ∨ r.status = .canceled then
      (.error (.jobFailed r.status (errPayload r.error)), [r.status], 1)
    else
      let rest := pollLoop polls (i + 1) fuel
      (rest.1, r.status :: rest.2.1, rest.2.2 + 1)

/-- The function `runReplicate`: create the prediction (oracle `p0`), report its
status, then poll up to the hard-coded `maxAttempts = 120`.  Returns the
outcome, the full `onProgress` trace (submission status first), and the
number of `getPrediction` calls. -/
def runReplicate (p0 : Prediction) (polls : Nat → Prediction) :
    Except RunError JSValue × List Status × Nat :=
  let r := pollLoop polls 0 120
  (r.1, p0.status :: r.2.1, r.2.2)

/-- The `while (attempts < maxAttempts)` loop of `pollPrediction`, by
remaining attempts: returns the prediction record itself as soon as a
terminal status is observed, times out otherwise. -/
def pollPredictionLoop (polls : Nat → Prediction) :
    Nat → Nat → Except Unit Prediction
  | _, 0 => .error ()
  | i, fuel + 1 =>
    let p := polls i
    if p.status = .succeeded ∨ p.status = .failed ∨ p.status = .canceled then .ok p
    else pollPredictionLoop polls (i + 1) fuel

/-- The function `pollPrediction` with its `maxAttempts` parameter (default 120):
polls from the first read; `Except.error ()` models the thrown
`'Prediction polling timed out'`. -/
def pollPrediction (polls : Nat → Prediction) (maxAttempts : Nat := 120) :
    Except Unit Prediction :=
  pollPredictionLoop polls 0 maxAttempts

/-! ## Caller-side output normalization (PhotoCard.handleRunAI) -/

/-- Model of `Array.isArray(output)`. -/
def isArray : JSValue → Bool
  | .arr _ => true
  | _ => false

/-- Model of `output.length` for arrays (irrelevant elsewhere, the code only reads
it behind `Array.isArray`). -/
def arrLen : JSValue → Nat
  | .arr xs => xs.length
  | _ => 0

/-- Model of `output[0]`, yielding `undefined` when absent. -/
def atZero : JSValue → JSValue
  | .arr (x :: _) => x
  | _ => .undefined

/-- Model of the check `typeof output` equals `'string'`. -/
def isString : JSValue → Bool
  | .str _ => true
  | _ => false

/-- The output-shape normalization in `handleRunAI`: first element of a
non-empty array, a string unchanged, otherwise `throw new
Error('Unexpected output format from Replicate')`. -/
def handleOutput (output : JSValue) : Except Unit JSValue :=
  if isArray output = true ∧ 0 < arrLen output then .ok (atZero output)
  else if isString output = true then .ok output
  else .error ()

/-- Errors observable from the composed flow. -/
inductive FlowError where
  | jobFailed (st : Status) (payload : JSValue)
  | pollTimeout
  | unexpectedOutput

/-- Injection of the poller's errors into the flow's errors. -/
def liftRunError : RunError → FlowError
  | .jobFailed st p => .jobFailed st p
  | .pollTimeout => .pollTimeout

/-- The composed flow of `handleRunAI`: run `runReplicate`, then
normalize the success payload with `handleOutput`. -/
def runFlow (p0 : Prediction) (polls : Nat → Prediction) : Except FlowError JSValue :=
  match (runReplicate p0 polls).1 with
  | .error e => .error (liftRunError e)
  | .ok out =>
    match handleOutput out with
    | .ok v => .ok v
    | .error _ => .error .unexpectedOutput

/-- The `onProgress` trace of the poll loop starting at read `i`, for `n`
reads: a helper for stating how far progress reporting went. -/
def statusTrace (polls : Nat → Prediction) : Nat → Nat → List Status
  | _, 0 => []
  | i, n + 1 => (polls i).status :: statusTrace polls (i + 1) n

/-- The value `runReplicate` produces from the first terminal poll. -/
def terminalResult (r : Prediction) : Except RunError JSValue :=
  if r.status = .succeeded then .ok r.output
  else .error (.jobFailed r.status (errPayload r.error))

/-! ## Concrete fixtures -/

/-- A non-terminal (`processing`) poll response. -/
def predProcessing : Prediction := ⟨"job", .processing, .undefined, .undefined⟩

/-- A successful poll response whose output is a one-element array. -/
def predSucceededArr : Prediction :=
  ⟨"job", .succeeded, .arr [(.str "https://example/out.png")], .undefined⟩

/-- The submission response of the concrete scenario. -/
def p0Scenario : Prediction := ⟨"job", .starting, .undefined, .undefined⟩

/-- The poll oracle of the concrete scenario: running, running, then
succeeded with a one-element output array. -/
def pollsScenario : Nat → Prediction :=
  fun n => if n < 2 then predProcessing else predSucceededArr

/-- A poll oracle stuck in `processing` forever. -/
def pollsStuck : Nat → Prediction := fun _ => predProcessing

/-- A canceled poll response carrying remote error text. -/
def predCanceled : Prediction := ⟨"job3", .canceled, .undefined, (.str "remote error text")⟩

/-- A poll oracle that reports `canceled` immediately. -/
def pollsCanceled : Nat → Prediction := fun _ => predCanceled

/-- A failed poll response carrying remote error text. -/
def predFailedBoom : Prediction := ⟨"job9", .failed, .undefined, (.str "boom")⟩

/-- A poll oracle that reports `failed` immediately. -/
def pollsFailedBoom : Nat → Prediction := fun _ => predFailedBoom

/-- A successful poll response whose output is a single string. -/
def predSucceededStr : Prediction :=
  ⟨"job2", .succeeded, .str "https://example/b.png", .undefined⟩

/-- A poll oracle that succeeds immediately with a string output. -/
def pollsSucceededStr : Nat → Prediction := fun _ => predSucceededStr

/-- A poll oracle: one `processing` read, then `succeeded`. -/
def pollsOneThenDone : Nat → Prediction :=
  fun n => if n = 0 then predProcessing else predSucceededArr

/-- A small concrete source image (2 wide, 3 tall, pixel value encodes
its coordinates). -/
def cImgA : Image Nat := ⟨2, 3, fun x y => (x + 10 * y).natAbs⟩

/-- A 2×1 image whose two pixels differ, distinguishing a horizontal flip
from the identity. -/
def cImgFlip : Image Nat := ⟨2, 1, fun x _ => x.natAbs⟩

/-! ## Helper lemmas -/

/-- Extensionality for output canvases. -/
theorem OutImage.ext' {α : Type} {x y : OutImage α} (hw : x.w = y.w) (hh : x.h = y.h)
    (hp : ∀ i j, x.pix i j = y.pix i j) : x = y := by
  cases x
  cases y
  simp only [OutImage.mk.injEq]
  exact ⟨hw, hh, funext fun i => funext fun j => hp i j⟩

/-- Congruence for a two-argument application, with `omega`-friendly
argument goals. -/
theorem app2_congr {α : Type} (f : Int → Int → α) {x y u v : Int}
    (hx : x = u) (hy : y = v) : f x y = f u v := by rw [hx, hy]

/-- A status fails the terminal test exactly when it fails the two checks
of `runReplicate`'s loop. -/
theorem nonterminal_iff (s : Status) :
    isTerminalStatus s = false ↔ (¬s = .succeeded ∧ ¬(s = .failed ∨ s = .canceled)) := by
  cases s <;> simp [isTerminalStatus]

/-- A status passes the terminal test exactly when it is one of the three
terminal literals. -/
theorem terminal_iff (s : Status) :
    isTerminalStatus s = true ↔ (s = .succeeded ∨ s = .failed ∨ s = .canceled) := by
  cases s <;> simp [isTerminalStatus]

/-- A run whose first `fuel` reads are all non-terminal exhausts its fuel:
timeout, full trace, `fuel` reads. -/
theorem pollLoop_timeout (polls : Nat → Prediction) :
    ∀ (fuel i : Nat),
      (∀ k, k < fuel → isTerminalStatus (polls (i + k)).status = false) →
      pollLoop polls i fuel = (.error .pollTimeout, statusTrace polls i fuel, fuel) := by
  intro fuel
  induction fuel with
  | zero => intro i _; rfl
  | succ n ih =>
    intro i h
    have h0 := h 0 (Nat.succ_pos n)
    rw [Nat.add_zero] at h0
    obtain ⟨hs, hf⟩ := (nonterminal_iff _).mp h0
    have hrec := ih (i + 1) (fun k hk => by
      have hx := h (k + 1) (by omega)
      rwa [show i + (k + 1) = i + 1 + k by omega] at hx)
    simp [pollLoop, hs, hf, hrec, statusTrace]

/-- A run whose first terminal read is the `j`-th (zero-based, within the
fuel bound) stops there: the terminal read's result, a trace of exactly
`j + 1` statuses, `j + 1` reads. -/
theorem pollLoop_terminal (polls : Nat → Prediction) :
    ∀ (j i fuel : Nat), j < fuel →
      (∀ k, k < j → isTerminalStatus (polls (i + k)).status = false) →
      isTerminalStatus (polls (i + j)).status = true →
      pollLoop polls i fuel =
        (terminalResult (polls (i + j)), statusTrace polls i (j + 1), j + 1) := by
  intro j
  induction j with
  | zero =>
    intro i fuel hf _ hterm
    obtain ⟨n, rfl⟩ : ∃ n, fuel = n + 1 := ⟨fuel - 1, by omega⟩
    rw [Nat.add_zero] at hterm
    by_cases hsucc : (polls i).status = .succeeded
    · simp [pollLoop, hsucc, terminalResult, statusTrace]
    · have hfc : (polls i).status = .failed ∨ (polls i).status = .canceled := by
        rcases (terminal_iff _).mp hterm with h | h | h
        · exact absurd h hsucc
        · exact Or.inl h
        · exact Or.inr h
      simp [pollLoop, hsucc, hfc, terminalResult, statusTrace]
  | succ m ih =>
    intro i fuel hf hpre hterm
    obtain ⟨n, rfl⟩ : ∃ n, fuel = n + 1 := ⟨fuel - 1, by omega⟩
    have h0 := hpre 0 (Nat.succ_pos m)
    rw [Nat.add_zero] at h0
    obtain ⟨hs, hfc⟩ := (nonterminal_iff _).mp h0
    have hrec := ih (i + 1) n (by omega)
      (fun k hk => by
        have hx := hpre (k + 1) (by omega)
        rwa [show i + (k + 1) = i + 1 + k by omega] at hx)
      (by rwa [show i + 1 + m = i + (m + 1) by omega])
    simp [pollLoop, hs, hfc, hrec, statusTrace, show i + 1 + m = i + (m + 1) by omega]

/-- The `pollPredictionLoop` analogue of `pollLoop_timeout`. -/
theorem pollPredictionLoop_timeout (polls : Nat → Prediction) :
    ∀ (fuel i : Nat),
      (∀ k, k < fuel → isTerminalStatus (polls (i + k)).status = false) →
      pollPredictionLoop polls i fuel = .error () := by
  intro fuel
  induction fuel with
  | zero => intro i _; rfl
  | succ n ih =>
    intro i h
    have h0 := h 0 (Nat.succ_pos n)
    rw [Nat.add_zero] at h0
    have hnt : ¬((polls i).status = .succeeded ∨ (polls i).status = .failed ∨
        (polls i).status = .canceled) := by
      intro hc
      rw [(terminal_iff _).mpr hc] at h0
      exact Bool.noConfusion h0
    have hrec := ih (i + 1) (fun k hk => by
      have hx := h (k + 1) (by omega)
      rwa [show i + (k + 1) = i + 1 + k by omega] at hx)
    simp [pollPredictionLoop, hnt, hrec]

/-- The `pollPredictionLoop` analogue of `pollLoop_terminal`: the prediction
record of the first terminal read is returned as a normal value. -/
theorem pollPredictionLoop_terminal (polls : Nat → Prediction) :
    ∀ (j i fuel : Nat), j < fuel →
      (∀ k, k < j → isTerminalStatus (polls (i + k)).status = false) →
      isTerminalStatus (polls (i + j)).status = true →
      pollPredictionLoop polls i fuel = .ok (polls (i + j)) := by
  intro j
  induction j with
  | zero =>
    intro i fuel hf _ hterm
    obtain ⟨n, rfl⟩ : ∃ n, fuel = n + 1 := ⟨fuel - 1, by omega⟩
    rw [Nat.add_zero] at hterm
    simp [pollPredictionLoop, (terminal_iff _).mp hterm]
  | succ m ih =>
    intro i fuel hf hpre hterm
    obtain ⟨n, rfl⟩ : ∃ n, fuel = n + 1 := ⟨fuel - 1, by omega⟩
    have h0 := hpre 0 (Nat.succ_pos m)
    rw [Nat.add_zero] at h0
    have hnt : ¬((polls i).status = .succeeded ∨ (polls i).status = .failed ∨
        (polls i).status = .canceled) := by
      intro hc
      rw [(terminal_iff _).mpr hc] at h0
      exact Bool.noConfusion h0
    have hrec := ih (i + 1) n (by omega)
      (fun k hk => by
        have hx := hpre (k + 1) (by omega)
        rwa [show i + (k + 1) = i + 1 + k by omega] at hx)
      (by rwa [show i + 1 + m = i + (m + 1) by omega])
    simp [pollPredictionLoop, hnt, hrec, show i + 1 + m = i + (m + 1) by omega]

/-! ## Claim theorems: prediction poller -/

/-- C3: when a job never reaches a terminal state, `runReplicate` raises
the poll timeout after performing exactly 120 (the hard-coded
`maxAttempts`) status reads, no more. -/
theorem c3_timeout_after_max_attempts (p0 : Prediction) (polls : Nat → Prediction)
    (h : ∀ i, i < 120 → isTerminalStatus (polls i).status = false) :
    (runReplicate p0 polls).1 = .error .pollTimeout ∧
      (runReplicate p0 polls).2.2 = 120 := by
  have hl := pollLoop_timeout polls 120 0 (fun k hk => by simpa using h k hk)
  simp [runReplicate, hl]

/-- Witness for C3: a job stuck in `processing` forever. -/
theorem c3_timeout_witness :
    (runReplicate p0Scenario pollsStuck).1 = .error .pollTimeout ∧
      (runReplicate p0Scenario pollsStuck).2.2 = 120 :=
  c3_timeout_after_max_attempts p0Scenario pollsStuck (fun _ _ => rfl)

/-- C4: when a status read observes `failed` or `canceled` (the first
terminal observation, with a non-falsy remote error), `runReplicate`
fails with the job-failure error carrying the remote-supplied error
payload. -/
theorem c4_job_failed_error (p0 : Prediction) (polls : Nat → Prediction) (j : Nat)
    (hj : j < 120)
    (hpre : ∀ k, k < j → isTerminalStatus (polls k).status = false)
    (hfc : (polls j).status = .failed ∨ (polls j).status = .canceled)
    (he : jsFalsy (polls j).error = false) :
    (runReplicate p0 polls).1 = .error (.jobFailed (polls j).status ((polls j).error)) := by
  have hterm : isTerminalStatus (polls j).status = true :=
    (terminal_iff _).mpr (Or.inr hfc)
  have hl := pollLoop_terminal polls j 0 120 hj
    (fun k hk => by simpa using hpre k hk) (by simpa using hterm)
  simp only [Nat.zero_add] at hl
  have hns : ¬(polls j).status = .succeeded := by
    rcases hfc with h | h <;> rw [h] <;> exact fun hh => Status.noConfusion hh
  simp [runReplicate, hl, terminalResult, hns, errPayload, he]

/-- Witness for C4: the first poll reports `canceled` with error text
`"remote error text"`. -/
theorem c4_job_failed_witness :
    (runReplicate p0Scenario pollsCanceled).1 =
      .error (.jobFailed Status.canceled (.str "remote error text")) :=
  c4_job_failed_error p0Scenario pollsCanceled 0 (by omega)
    (fun k hk => absurd hk (Nat.not_lt_zero k)) (Or.inr rfl) rfl

/-- C5 counterexample: in the concrete scenario (submission status, then
polls `running`, `running`, `succeeded` with a one-element output array)
the progress callback fires four times, not three, and `runReplicate`
returns the output array, not the string inside it. -/
theorem c5_scenario_counterexample :
    (runReplicate p0Scenario pollsScenario).2.1.length = 4 ∧
      (runReplicate p0Scenario pollsScenario).1 ≠
        .ok (.str "https://example/out.png") :=
  ⟨rfl, fun h => JSValue.noConfusion (Except.ok.inj h)⟩

/-- C5 as amended: the scenario performs exactly three polls, invokes the
progress callback four times (submission status first, then
`processing`, `processing`, `succeeded`), `runReplicate` returns the
one-element output array, and the caller-side normalization of
`handleRunAI` yields the string inside it. -/
theorem c5_scenario_amended :
    runReplicate p0Scenario pollsScenario =
      (.ok (.arr [(.str "https://example/out.png")]),
        [Status.starting, Status.processing, Status.processing, Status.succeeded], 3) ∧
      runFlow p0Scenario pollsScenario = .ok (.str "https://example/out.png") :=
  ⟨rfl, rfl⟩

/-- C8: once a poll observes a terminal status, no further status reads
happen and no further progress is reported: the run performs exactly
`j + 1` reads and its progress trace is the submission status followed by
the statuses of reads `0..j`, ending at the first terminal one. -/
theorem c8_terminal_stops_polling (p0 : Prediction) (polls : Nat → Prediction) (j : Nat)
    (hj : j < 120)
    (hpre : ∀ k, k < j → isTerminalStatus (polls k).status = false)
    (hterm : isTerminalStatus (polls j).status = true) :
    (runReplicate p0 polls).2.2 = j + 1 ∧
      (runReplicate p0 polls).2.1 = p0.status :: statusTrace polls 0 (j + 1) := by
  have hl := pollLoop_terminal polls j 0 120 hj
    (fun k hk => by simpa using hpre k hk) (by simpa using hterm)
  simp [runReplicate, hl]

/-- Witness for C8: one `processing` read, then `succeeded`; two reads in
total and a trace ending at the terminal status. -/
theorem c8_terminal_witness :
    (runReplicate p0Scenario pollsOneThenDone).2.2 = 2 ∧
      (runReplicate p0Scenario pollsOneThenDone).2.1 =
        [Status.starting, Status.processing, Status.succeeded] :=
  c8_terminal_stops_polling p0Scenario pollsOneThenDone 1 (by omega)
    (fun k hk => by
      have hk0 : k = 0 := by omega
      subst hk0
      rfl) rfl

/-- C9: `pollPrediction` returns the prediction record as a normal value
at the first terminal status, whatever that status is (`succeeded`,
`failed` or `canceled` alike), and errors only when the attempt ceiling
is exhausted without a terminal status. -/
theorem c9_poll_returns_terminal_record (polls : Nat → Prediction) (maxA : Nat) :
    (∀ j, j < maxA →
        (∀ k, k < j → isTerminalStatus (polls k).status = false) →
        isTerminalStatus (polls j).status = true →
        pollPrediction polls maxA = .ok (polls j)) ∧
      ((∀ i, i < maxA → isTerminalStatus (polls i).status = false) →
        pollPrediction polls maxA = .error ()) := by
  constructor
  · intro j hj hpre hterm
    have hl := pollPredictionLoop_terminal polls j 0 maxA hj
      (fun k hk => by simpa using hpre k hk) (by simpa using hterm)
    simpa [pollPrediction] using hl
  · intro h
    have hl := pollPredictionLoop_timeout polls maxA 0 (fun k hk => by simpa using h k hk)
    simpa [pollPrediction] using hl

/-- Witness for C9: a `failed` prediction record is returned as a normal
value by `pollPrediction`. -/
theorem c9_poll_witness : pollPrediction pollsFailedBoom 120 = .ok predFailedBoom :=
  (c9_poll_returns_terminal_record pollsFailedBoom 120).1 0 (by omega)
    (fun k hk => absurd hk (Nat.not_lt_zero k)) rfl

/-- C2: whatever terminal-success payload `runReplicate` produced, the
caller-visible result of the flow is the payload's first element for a
non-empty array, the string itself for a string, and the
unexpected-output-format failure for every other shape. -/
theorem c2_output_normalization (p0 : Prediction) (polls : Nat → Prediction)
    (out : JSValue) (h : (runReplicate p0 polls).1 = .ok out) :
    match out with
    | .arr (x :: _) => runFlow p0 polls = .ok x
    | .str s => runFlow p0 polls = .ok (.str s)
    | _ => runFlow p0 polls = .error .unexpectedOutput := by
  cases out with
  | str s => simp [runFlow, h, handleOutput, isArray, arrLen, isString]
  | num n => simp [runFlow, h, handleOutput, isArray, arrLen, isString]
  | bool b => simp [runFlow, h, handleOutput, isArray, arrLen, isString]
  | nullv => simp [runFlow, h, handleOutput, isArray, arrLen, isString]
  | undefined => simp [runFlow, h, handleOutput, isArray, arrLen, isString]
  | arr xs =>
    cases xs with
    | nil => simp [runFlow, h, handleOutput, isArray, arrLen, isString]
    | cons x rest => simp [runFlow, h, handleOutput, isArray, arrLen, atZero]

/-- Witness for C2: a single-string output is returned unchanged by the
flow. -/
theorem c2_output_witness :
    runFlow p0Scenario pollsSucceededStr = .ok (.str "https://example/b.png") :=
  c2_output_normalization p0Scenario pollsSucceededStr (.str "https://example/b.png") rfl

/-! ## Claim theorems: orientation normalizer -/

/-- Unfolding of `drawImage` at an explicit transform record: the source
cell is the componentwise min of the two inverse corner images. -/
theorem drawImage_mk {α : Type} (a b c d e f : Int) (src : Image α) (i j : Int) :
    drawImage ⟨a, b, c, d, e, f⟩ src i j =
      if 0 ≤ min (a * (i - e) + b * (j - f)) (a * (i + 1 - e) + b * (j + 1 - f)) ∧
          min (a * (i - e) + b * (j - f)) (a * (i + 1 - e) + b * (j + 1 - f)) < src.w ∧
          0 ≤ min (c * (i - e) + d * (j - f)) (c * (i + 1 - e) + d * (j + 1 - f)) ∧
          min (c * (i - e) + d * (j - f)) (c * (i + 1 - e) + d * (j + 1 - f)) < src.h then
        some (src.pix
          (min (a * (i - e) + b * (j - f)) (a * (i + 1 - e) + b * (j + 1 - f)))
          (min (c * (i - e) + d * (j - f)) (c * (i + 1 - e) + d * (j + 1 - f))))
      else none := rfl

/-- Canvas width of the normalizer, unfolded. -/
theorem normalize_w_eq {α : Type} (o : Nat) (src : Image α) :
    (normalizeImageOrientation o src).w =
      if 4 < o ∧ o < 9 then src.h else src.w := rfl

/-- Canvas height of the normalizer, unfolded. -/
theorem normalize_h_eq {α : Type} (o : Nat) (src : Image α) :
    (normalizeImageOrientation o src).h =
      if 4 < o ∧ o < 9 then src.w else src.h := rfl

/-- Canvas pixels of the normalizer, unfolded. -/
theorem normalize_pix_eq {α : Type} (o : Nat) (src : Image α) (i j : Int) :
    (normalizeImageOrientation o src).pix i j =
      if 0 ≤ i ∧ i < (if 4 < o ∧ o < 9 then src.h else src.w) ∧
          0 ≤ j ∧ j < (if 4 < o ∧ o < 9 then src.w else src.h) then
        drawImage (orientTransform o src.w src.h) src i j
      else none := rfl

/-- Normalizer pixels at tag 1 (default branch, identity transform). -/
theorem normalize_pix_one {α : Type} (src : Image α) (i j : Int) :
    (normalizeImageOrientation 1 src).pix i j =
      if 0 ≤ i ∧ i < src.w ∧ 0 ≤ j ∧ j < src.h then
        drawImage ⟨1, 0, 0, 1, 0, 0⟩ src i j
      else none := rfl

/-- Normalizer pixels at tag 2. -/
theorem normalize_pix_two {α : Type} (src : Image α) (i j : Int) :
    (normalizeImageOrientation 2 src).pix i j =
      if 0 ≤ i ∧ i < src.w ∧ 0 ≤ j ∧ j < src.h then
        drawImage ⟨-1, 0, 0, 1, src.w, 0⟩ src i j
      else none := rfl

/-- Normalizer pixels at tag 3. -/
theorem normalize_pix_three {α : Type} (src : Image α) (i j : Int) :
    (normalizeImageOrientation 3 src).pix i j =
      if 0 ≤ i ∧ i < src.w ∧ 0 ≤ j ∧ j < src.h then
        drawImage ⟨-1, 0, 0, -1, src.w, src.h⟩ src i j
      else none := rfl

/-- Normalizer pixels at tag 4. -/
theorem normalize_pix_four {α : Type} (src : Image α) (i j : Int) :
    (normalizeImageOrientation 4 src).pix i j =
      if 0 ≤ i ∧ i < src.w ∧ 0 ≤ j ∧ j < src.h then
        drawImage ⟨1, 0, 0, -1, 0, src.h⟩ src i j
      else none := rfl

/-- Normalizer pixels at tag 5 (swapped canvas). -/
theorem normalize_pix_five {α : Type} (src : Image α) (i j : Int) :
    (normalizeImageOrientation 5 src).pix i j =
      if 0 ≤ i ∧ i < src.h ∧ 0 ≤ j ∧ j < src.w then
        drawImage ⟨0, 1, 1, 0, 0, 0⟩ src i j
      else none := rfl

/-- Normalizer pixels at tag 6 (swapped canvas). -/
theorem normalize_pix_six {α : Type} (src : Image α) (i j : Int) :
    (normalizeImageOrientation 6 src).pix i j =
      if 0 ≤ i ∧ i < src.h ∧ 0 ≤ j ∧ j < src.w then
        drawImage ⟨0, 1, -1, 0, src.h, 0⟩ src i j
      else none := rfl

/-- Normalizer pixels at tag 7 (swapped canvas). -/
theorem normalize_pix_seven {α : Type} (src : Image α) (i j : Int) :
    (normalizeImageOrientation 7 src).pix i j =
      if 0 ≤ i ∧ i < src.h ∧ 0 ≤ j ∧ j < src.w then
        drawImage ⟨0, -1, -1, 0, src.h, src.w⟩ src i j
      else none := rfl

/-- Normalizer pixels at tag 8 (swapped canvas). -/
theorem normalize_pix_eight {α : Type} (src : Image α) (i j : Int) :
    (normalizeImageOrientation 8 src).pix i j =
      if 0 ≤ i ∧ i < src.h ∧ 0 ≤ j ∧ j < src.w then
        drawImage ⟨0, -1, 1, 0, 0, src.w⟩ src i j
      else none := rfl

/-- Reference pixels at tag 1 (identity). -/
theorem ref_pix_one {α : Type} (src : Image α) (i j : Int) :
    (refTransform 1 src).pix i j =
      if 0 ≤ i ∧ i < src.w ∧ 0 ≤ j ∧ j < src.h then some (src.pix i j)
      else none := rfl

/-- Reference pixels at tag 2 (horizontal flip). -/
theorem ref_pix_two {α : Type} (src : Image α) (i j : Int) :
    (refTransform 2 src).pix i j =
      if 0 ≤ i ∧ i < src.w ∧ 0 ≤ j ∧ j < src.h then some (src.pix (src.w - 1 - i) j)
      else none := rfl

/-- Reference pixels at tag 3 (180° rotation). -/
theorem ref_pix_three {α : Type} (src : Image α) (i j : Int) :
    (refTransform 3 src).pix i j =
      if 0 ≤ i ∧ i < src.w ∧ 0 ≤ j ∧ j < src.h then
        some (src.pix (src.w - 1 - i) (src.h - 1 - j))
      else none := rfl

/-- Reference pixels at tag 4 (vertical flip). -/
theorem ref_pix_four {α : Type} (src : Image α) (i j : Int) :
    (refTransform 4 src).pix i j =
      if 0 ≤ i ∧ i < src.w ∧ 0 ≤ j ∧ j < src.h then some (src.pix i (src.h - 1 - j))
      else none := rfl

/-- Reference pixels at tag 5 (transpose). -/
theorem ref_pix_five {α : Type} (src : Image α) (i j : Int) :
    (refTransform 5 src).pix i j =
      if 0 ≤ i ∧ i < src.h ∧ 0 ≤ j ∧ j < src.w then some (src.pix j i)
      else none := rfl

/-- Reference pixels at tag 6 (90° clockwise). -/
theorem ref_pix_six {α : Type} (src : Image α) (i j : Int) :
    (refTransform 6 src).pix i j =
      if 0 ≤ i ∧ i < src.h ∧ 0 ≤ j ∧ j < src.w then some (src.pix j (src.h - 1 - i))
      else none := rfl

/-- Reference pixels at tag 7 (transverse). -/
theorem ref_pix_seven {α : Type} (src : Image α) (i j : Int) :
    (refTransform 7 src).pix i j =
      if 0 ≤ i ∧ i < src.h ∧ 0 ≤ j ∧ j < src.w then
        some (src.pix (src.w - 1 - j) (src.h - 1 - i))
      else none := rfl

/-- Reference pixels at tag 8 (270° clockwise). -/
theorem ref_pix_eight {α : Type} (src : Image α) (i j : Int) :
    (refTransform 8 src).pix i j =
      if 0 ≤ i ∧ i < src.h ∧ 0 ≤ j ∧ j < src.w then some (src.pix (src.w - 1 - j) i)
      else none := rfl

/-- For a tag handled by the switch's default branch (0, 1, or anything
at least 9) the canvas keeps the source dimensions and the drawn content
is the identity re-encode of the source. -/
theorem normalize_default {α : Type} (src : Image α) (o : Nat)
    (h : o = 0 ∨ o = 1 ∨ 9 ≤ o) :
    normalizeImageOrientation o src = refTransform 1 src := by
  have hsw : ¬(4 < o ∧ o < 9) := by omega
  have hot : orientTransform o src.w src.h = ⟨1, 0, 0, 1, 0, 0⟩ := by
    simp only [orientTransform]
    rw [if_neg (by omega : ¬o = 2), if_neg (by omega : ¬o = 3), if_neg (by omega : ¬o = 4),
      if_neg (by omega : ¬o = 5), if_neg (by omega : ¬o = 6), if_neg (by omega : ¬o = 7),
      if_neg (by omega : ¬o = 8)]
  refine OutImage.ext' ?_ ?_ (fun i j => ?_)
  · rw [normalize_w_eq, if_neg hsw]
    exact rfl
  · rw [normalize_h_eq, if_neg hsw]
    exact rfl
  · rw [normalize_pix_eq, if_neg hsw, if_neg hsw, hot, drawImage_mk, ref_pix_one]
    split_ifs <;>
      first
        | rfl
        | exact app2_congr (fun a b => some (src.pix a b)) (by omega) (by omega)
        | (exfalso; omega)

/-- C1: for every orientation tag in 1..8, the canvas produced by
`normalizeImageOrientation` carries exactly the reference geometric
transform of the source pixels prescribed by the table (identity,
horizontal flip, 180° rotation, vertical flip, transpose, 90° clockwise,
transverse, 270° clockwise). -/
theorem c1_normalize_matches_reference_transform {α : Type} (src : Image α) (o : Nat)
    (h1 : 1 ≤ o) (h2 : o ≤ 8) :
    normalizeImageOrientation o src = refTransform o src := by
  interval_cases o
  · refine OutImage.ext' rfl rfl (fun i j => ?_)
    rw [normalize_pix_one, ref_pix_one, drawImage_mk]
    split_ifs <;>
      first
        | rfl
        | exact app2_congr (fun a b => some (src.pix a b)) (by omega) (by omega)
        | (exfalso; omega)
  · refine OutImage.ext' rfl rfl (fun i j => ?_)
    rw [normalize_pix_two, ref_pix_two, drawImage_mk]
    split_ifs <;>
      first
        | rfl
        | exact app2_congr (fun a b => some (src.pix a b)) (by omega) (by omega)
        | (exfalso; omega)
  · refine OutImage.ext' rfl rfl (fun i j => ?_)
    rw [normalize_pix_three, ref_pix_three, drawImage_mk]
    split_ifs <;>
      first
        | rfl
        | exact app2_congr (fun a b => some (src.pix a b)) (by omega) (by omega)
        | (exfalso; omega)
  · refine OutImage.ext' rfl rfl (fun i j => ?_)
    rw [normalize_pix_four, ref_pix_four, drawImage_mk]
    split_ifs <;>
      first
        | rfl
        | exact app2_congr (fun a b => some (src.pix a b)) (by omega) (by omega)
        | (exfalso; omega)
  · refine OutImage.ext' rfl rfl (fun i j => ?_)
    rw [normalize_pix_five, ref_pix_five, drawImage_mk]
    split_ifs <;>
      first
        | rfl
        | exact app2_congr (fun a b => some (src.pix a b)) (by omega) (by omega)
        | (exfalso; omega)
  · refine OutImage.ext' rfl rfl (fun i j => ?_)
    rw [normalize_pix_six, ref_pix_six, drawImage_mk]
    split_ifs <;>
      first
        | rfl
        | exact app2_congr (fun a b => some (src.pix a b)) (by omega) (by omega)
        | (exfalso; omega)
  · refine OutImage.ext' rfl rfl (fun i j => ?_)
    rw [normalize_pix_seven, ref_pix_seven, drawImage_mk]
    split_ifs <;>
      first
        | rfl
        | exact app2_congr (fun a b => some (src.pix a b)) (by omega) (by omega)
        | (exfalso; omega)
  · refine OutImage.ext' rfl rfl (fun i j => ?_)
    rw [normalize_pix_eight, ref_pix_eight, drawImage_mk]
    split_ifs <;>
      first
        | rfl
        | exact app2_congr (fun a b => some (src.pix a b)) (by omega) (by omega)
        | (exfalso; omega)

/-- Witness for C1: the 90°-clockwise tag on a concrete 2×3 image. -/
theorem c1_normalize_witness :
    normalizeImageOrientation 6 cImgA = refTransform 6 cImgA :=
  c1_normalize_matches_reference_transform cImgA 6 (by omega) (by omega)

/-- C6: evaluation at the failing input: on the single-byte buffer
`[0xFF]` the very first two-byte read runs past the end of the buffer, so
`getOrientation` raises (modelling the `DataView` `RangeError`) instead
of failing soft to orientation 1. -/
theorem c6_short_buffer_raises : getOrientation [255] = .error () := rfl

/-- C7 counterexample: the empty buffer carries no metadata marker at
all, yet `getOrientation` does not yield the identity orientation — the
initial read throws. -/
theorem c7_counterexample_empty_buffer :
    getOrientation ([] : List Nat) ≠ .ok 1 :=
  fun h => Except.noConfusion h

/-- C7 as amended: for every buffer of at least two bytes that does not
begin with the JPEG SOI marker, `getOrientation` yields orientation 1,
and normalization at orientation 1 is the identity transform (output
pixel-identical to the input, modulo re-encoding). -/
theorem c7_no_marker_identity_amended (α : Type) (src : Image α) (bs : List Nat)
    (hlen : 2 ≤ bs.length) (hsoi : getU16 bs 0 false ≠ .ok 0xFFD8) :
    getOrientation bs = .ok 1 ∧ normalizeImageOrientation 1 src = refTransform 1 src := by
  constructor
  · cases hu : getU16 bs 0 false with
    | error e =>
      simp only [getU16] at hu
      rw [if_pos (by omega : 0 + 2 ≤ bs.length)] at hu
      exact Except.noConfusion hu
    | ok soi =>
      have hne : ¬soi = 0xFFD8 := fun hv => hsoi (by rw [hu, hv])
      simp only [getOrientation, hu]
      simp [hne]
  · exact normalize_default src 1 (Or.inr (Or.inl rfl))

/-- Witness for C7: the two-byte buffer `[0, 0]`. -/
theorem c7_no_marker_witness :
    getOrientation [0, 0] = .ok 1 ∧
      normalizeImageOrientation 1 cImgA = refTransform 1 cImgA :=
  c7_no_marker_identity_amended Nat cImgA [0, 0] (by decide)
    (fun h => absurd (Except.ok.inj h) (by decide))

/-- C10 counterexample: at tag 2 the dimensions are unchanged but a
geometric transform (the horizontal flip) is applied: on a 2×1 image the
output pixel at the origin differs from the identity re-encode's. -/
theorem c10_counterexample_tag2 :
    (normalizeImageOrientation 2 cImgFlip).pix 0 0 ≠ (refTransform 1 cImgFlip).pix 0 0 := by
  decide

/-- C10 as amended: the canvas dimensions are the source dimensions with
width and height swapped exactly when the tag is in {5,6,7,8} and are
unchanged for every other tag; and for tag values outside 2..8 (1 and
every value outside 1..8) no geometric transform is applied — the output
is the identity re-encode.  (Tags 2, 3 and 4 keep the dimensions but do
apply a flip or rotation.) -/
theorem c10_dims_and_default_amended {α : Type} (src : Image α) (o : Nat) :
    ((5 ≤ o ∧ o ≤ 8) →
        (normalizeImageOrientation o src).w = src.h ∧
          (normalizeImageOrientation o src).h = src.w) ∧
      (¬(5 ≤ o ∧ o ≤ 8) →
        (normalizeImageOrientation o src).w = src.w ∧
          (normalizeImageOrientation o src).h = src.h) ∧
      ((o = 0 ∨ o = 1 ∨ 9 ≤ o) → normalizeImageOrientation o src = refTransform 1 src) := by
  refine ⟨?_, ?_, ?_⟩
  · intro h
    have hc : 4 < o ∧ o < 9 := by omega
    rw [normalize_w_eq, normalize_h_eq, if_pos hc, if_pos hc]
    exact ⟨rfl, rfl⟩
  · intro h
    have hc : ¬(4 < o ∧ o < 9) := by omega
    rw [normalize_w_eq, normalize_h_eq, if_neg hc, if_neg hc]
    exact ⟨rfl, rfl⟩
  · exact normalize_default src o

/-- Witness for C10: tag 6 swaps the dimensions of the concrete 2×3
image; tag 9 leaves the image an identity re-encode. -/
theorem c10_dims_witness :
    ((normalizeImageOrientation 6 cImgA).w = cImgA.h ∧
        (normalizeImageOrientation 6 cImgA).h = cImgA.w) ∧
      normalizeImageOrientation 9 cImgA = refTransform 1 cImgA :=
  ⟨(c10_dims_and_default_amended cImgA 6).1 (by decide),
    (c10_dims_and_default_amended cImgA 9).2.2 (by decide)⟩

end ImageManipulator
